import Mathlib

/-!
Formal model of the TrendPulse authentication core
(`backend/app/core/security.py`, `backend/app/core/config.py`,
`backend/app/services/auth_service.py`, `backend/app/api/routes/auth.py`).

Conventions of the shallow embedding:
* Wall-clock instants and durations are integers (seconds).  Each request
  handler receives a single `now`; the Python code calls
  `datetime.utcnow()` several times inside one handler, which we collapse
  to one instant (process time is assumed UTC, so
  `datetime.fromtimestamp(e) < datetime.utcnow()` is `e < now`).
* Randomly generated values (uuids, `secrets.token_urlsafe`, argon2 salts)
  are explicit parameters of the operations.
* `jwt.encode`/`jwt.decode` (python-jose, HS256) are modelled by an
  inductive token: a token is garbage (undecodable) or a claims record
  signed under some key; `jwt.decode` succeeds iff the key equals the
  configured secret, and — as jose does with default options — rejects a
  token whose `exp` is strictly in the past (`ExpiredSignatureError` is a
  `JWTError`).
* The argon2 `PasswordHasher` is modelled by an abstract digest function
  `f : salt → password → digest`; `ph.hash` draws a salt and stores it in
  the self-describing hash, `ph.verify` recomputes the digest from the
  stored salt and raises `VerifyMismatchError` on a mismatch.
* The SQLAlchemy store is a record of four lists (one per table), updated
  functionally; `commit` of mutated rows is the returned store.
  `scalar_one_or_none` on a query that filters on a column carrying a
  uniqueness constraint (or on it plus a null check) can match at most
  one row and is modelled by `List.find?`; the one query without such a
  constraint — logout's session lookup by user id and `LIKE` pattern —
  is modelled by filtering and raising `MultipleResultsFound` on more
  than one row, as `scalar_one_or_none` does.
-/

namespace TrendPulse

/-! ## Configuration (`config.py`, class Settings) -/

def ACCESS_TOKEN_EXPIRE_MINUTES : Int := 15

def REFRESH_TOKEN_EXPIRE_DAYS : Int := 7

/-- `timedelta(minutes = m)` in seconds. -/
def secondsOfMinutes (m : Int) : Int := m * 60

/-- `timedelta(hours = h)` in seconds. -/
def secondsOfHours (h : Int) : Int := h * 3600

/-- `timedelta(days = d)` in seconds. -/
def secondsOfDays (d : Int) : Int := d * 86400

/-! ## Token codec (`security.py`) -/

/-- Decoded JWT payload.  `create_access_token`/`create_refresh_token`
are always called with `data = {"sub": ..., "email": ...}` and add
`exp`, `iat` and `type`. -/
structure JwtClaims where
  sub : Option String
  email : Option String
  exp : Option Int
  iat : Int
  type : String
deriving DecidableEq, Repr

/-- A token string as seen by `jwt.decode`: either undecodable garbage or
a payload signed under `key`. -/
inductive JwtToken where
  | garbage
  | signed (key : String) (claims : JwtClaims)
deriving DecidableEq, Repr

/-- `jose.jwt.decode(token, secret, algorithms=[...])` with default
options: fails (`JWTError`) on garbage or a wrong key, and raises
`ExpiredSignatureError` when the `exp` claim is strictly in the past. -/
def jose_decode (secret : String) (now : Int) : JwtToken → Option JwtClaims
  | JwtToken.garbage => none
  | JwtToken.signed key claims =>
    if key = secret then
      match claims.exp with
      | some e => if e < now then none else some claims
      | none => some claims
    else none

/-- `create_access_token` (security.py:46).  A zero `expires_delta` is
falsy in Python and falls back to the configured default. -/
def create_access_token (secret : String) (now : Int)
    (dataSub dataEmail : String) (expires_delta : Option Int) : JwtToken :=
  let expire : Int :=
    match expires_delta with
    | some d =>
      if d ≠ 0 then now + d
      else now + secondsOfMinutes ACCESS_TOKEN_EXPIRE_MINUTES
    | none => now + secondsOfMinutes ACCESS_TOKEN_EXPIRE_MINUTES
  JwtToken.signed secret
    { sub := some dataSub, email := some dataEmail,
      exp := some expire, iat := now, type := "access" }

/-- `create_refresh_token` (security.py:75). -/
def create_refresh_token (secret : String) (now : Int)
    (dataSub dataEmail : String) (expires_delta : Option Int) : JwtToken :=
  let expire : Int :=
    match expires_delta with
    | some d =>
      if d ≠ 0 then now + d
      else now + secondsOfDays REFRESH_TOKEN_EXPIRE_DAYS
    | none => now + secondsOfDays REFRESH_TOKEN_EXPIRE_DAYS
  JwtToken.signed secret
    { sub := some dataSub, email := some dataEmail,
      exp := some expire, iat := now, type := "refresh" }

/-- `verify_token` (security.py:104): decode, check the `type` claim
against `token_type`, then reject when `exp` is absent or
`datetime.fromtimestamp(exp) < datetime.utcnow()`. -/
def verify_token (secret : String) (now : Int)
    (token : JwtToken) (token_type : String) : Option JwtClaims :=
  match jose_decode secret now token with
  | none => none
  | some payload =>
    if payload.type ≠ token_type then none
    else
      match payload.exp with
      | none => none
      | some e => if e < now then none else some payload

/-! ## Password hasher (`security.py`, argon2) -/

/-- An argon2 encoded hash is self-describing: it embeds the salt next to
the digest.  `digestF : salt → password → digest` abstracts the argon2
key-derivation function. -/
structure Argon2Hash where
  salt : String
  digest : String
deriving DecidableEq, Repr

/-- Outcome of `PasswordHasher.verify`: success, or the raised
`VerifyMismatchError`. -/
inductive Argon2VerifyOutcome where
  | ok
  | verifyMismatchError
deriving DecidableEq, Repr

/-- `ph.hash(password)` with the freshly drawn `salt` made explicit. -/
def ph_hash (digestF : String → String → String)
    (salt password : String) : Argon2Hash :=
  { salt := salt, digest := digestF salt password }

/-- `ph.verify(hash, password)`: recompute the digest from the stored
salt and compare; raise `VerifyMismatchError` on mismatch. -/
def ph_verify (digestF : String → String → String)
    (h : Argon2Hash) (password : String) : Argon2VerifyOutcome :=
  if digestF h.salt password = h.digest then Argon2VerifyOutcome.ok
  else Argon2VerifyOutcome.verifyMismatchError

/-- `hash_password` (security.py:21). -/
def hash_password (digestF : String → String → String)
    (salt password : String) : Argon2Hash :=
  ph_hash digestF salt password

/-- `verify_password` (security.py:26): catches `VerifyMismatchError`
and returns `false` instead of propagating it. -/
def verify_password (digestF : String → String → String)
    (plain_password : String) (hashed_password : Argon2Hash) : Bool :=
  match ph_verify digestF hashed_password plain_password with
  | Argon2VerifyOutcome.ok => true
  | Argon2VerifyOutcome.verifyMismatchError => false

/-! ## Data model (`models/user.py`)

Only the columns read or written by the auth flows are modelled; the
OAuth ids, avatar and preference columns that no claim touches are
omitted.  Dates are integer seconds, SQL `NULL` is `Option.none`. -/

/-- Row of `users`.  `email` carries a uniqueness constraint. -/
structure UserRec where
  id : String
  email : String
  password_hash : Option Argon2Hash
  name : Option String
  preferred_language : String
  email_verified : Bool
  email_verified_at : Option Int
  created_at : Int
  updated_at : Int
  last_login_at : Option Int
deriving DecidableEq, Repr

/-- Row of `sessions` (`Session` model; `UserSession` in the service). -/
structure SessionRec where
  id : String
  user_id : String
  token : String
  refresh_token : String
  user_agent : Option String
  ip_address : Option String
  expires_at : Int
  created_at : Int
deriving DecidableEq, Repr

/-- Row of `password_resets` (`PasswordReset` model). -/
structure PasswordResetRec where
  id : String
  email : String
  token : String
  expires_at : Int
  used_at : Option Int
  created_at : Int
deriving DecidableEq, Repr

/-- Row of `email_verifications` (`EmailVerification` model). -/
structure EmailVerificationRec where
  id : String
  email : String
  token : String
  expires_at : Int
  verified_at : Option Int
  created_at : Int
deriving DecidableEq, Repr

/-- The persisted store: the four auth tables. -/
structure DB where
  users : List UserRec
  sessions : List SessionRec
  password_resets : List PasswordResetRec
  email_verifications : List EmailVerificationRec
deriving DecidableEq, Repr

/-! ## Request / response schemas (`schemas/auth.py`) -/

/-- `UserRegister`. -/
structure UserRegister where
  email : String
  password : String
  name : Option String
  preferred_language : Option String
deriving DecidableEq, Repr

/-- `UserLogin` (`remember_me` defaults to false at the schema layer). -/
structure UserLogin where
  email : String
  password : String
  remember_me : Bool
deriving DecidableEq, Repr

/-- `TokenResponse` (the `user` projection is the refreshed row). -/
structure TokenResponse where
  access_token : JwtToken
  refresh_token : JwtToken
  token_type : String
  expires_in : Int
  user : UserRec
deriving DecidableEq, Repr

/-- The dict returned by `refresh_access_token`
(becomes `TokenRefreshResponse`). -/
structure RefreshResponse where
  access_token : JwtToken
  token_type : String
  expires_in : Int
deriving DecidableEq, Repr

/-! ## Auth service (`services/auth_service.py`)

Each operation returns the store after commit/rollback together with the
result; `ValueError(msg)` becomes `Except.error msg` with the exact
message string the code raises. -/

/-- Python slice `s[:n]`, written over the character list so that it
evaluates by kernel reduction. -/
def strTake (s : String) (n : Nat) : String := String.mk (s.data.take n)

/-- SQL `LIKE` pattern matching (no ESCAPE clause, as in the query):
`%` matches any sequence of characters, `_` matches exactly one
character, every other pattern character matches itself, case
sensitively.  Structural recursion on the pattern (the `%` case tries
every suffix of the string), so it evaluates by kernel reduction. -/
def likeMatch : List Char → List Char → Bool
  | [], s => s.isEmpty
  | '%' :: ps, s => (List.tails s).any (fun s2 => likeMatch ps s2)
  | '_' :: _, [] => false
  | '_' :: ps, _ :: s => likeMatch ps s
  | _ :: _, [] => false
  | p :: ps, c :: s => (p == c) && likeMatch ps s

/-- `column.like(pat)` applied to a stored value. -/
def likeMatches (pat s : String) : Bool := likeMatch pat.data s.data

/-- `sqlalchemy.exc.MultipleResultsFound`, raised by
`scalar_one_or_none` when the filtered query returns more than one
row.  It is not caught in the service, so the route surfaces it as a
500. -/
inductive DbError where
  | multipleResultsFound
deriving DecidableEq, Repr

/-- `user_data.preferred_language or "en"`: `None` and the falsy empty
string both fall back to `"en"`. -/
def languageOrDefault : Option String → String
  | some s => if s ≠ "" then s else "en"
  | none => "en"

/-- `register_user` (auth_service.py:38).  The pre-check runs against
`dbCheck`, the `INSERT ... COMMIT` against `dbCommit` (in a sequential
run they coincide; a concurrent duplicate makes `dbCommit` differ from
`dbCheck`).  The uniqueness constraints on `users.email` and
`email_verifications.token` raise `IntegrityError` at commit, which the
code converts — after rollback — to the same `ValueError` as the
pre-check. -/
def register_user (digestF : String → String → String)
    (salt userId verifId verification_token : String) (now : Int)
    (dbCheck dbCommit : DB) (user_data : UserRegister) :
    DB × Except String (UserRec × String) :=
  if dbCheck.users.any (fun u => u.email == user_data.email) then
    (dbCommit, Except.error "Email already registered")
  else
    let user : UserRec :=
      { id := userId, email := user_data.email,
        password_hash := some (hash_password digestF salt user_data.password),
        name := user_data.name,
        preferred_language := languageOrDefault user_data.preferred_language,
        email_verified := false, email_verified_at := none,
        created_at := now, updated_at := now, last_login_at := none }
    let ev : EmailVerificationRec :=
      { id := verifId, email := user_data.email, token := verification_token,
        expires_at := now + secondsOfHours 24, verified_at := none,
        created_at := now }
    if dbCommit.users.any (fun u => u.email == user.email)
        || dbCommit.email_verifications.any (fun e => e.token == ev.token) then
      (dbCommit, Except.error "Email already registered")
    else
      ({ dbCommit with
          users := dbCommit.users ++ [user],
          email_verifications := dbCommit.email_verifications ++ [ev] },
        Except.ok (user, verification_token))

/-- `login_user` (auth_service.py:110).  `enc` renders a JWT to its
transport string (the session stores the first 100 characters of it). -/
def login_user (digestF : String → String → String) (secret : String)
    (enc : JwtToken → String) (sessionId : String) (now : Int)
    (db : DB) (login_data : UserLogin)
    (user_agent ip_address : Option String) :
    DB × Except String TokenResponse :=
  match db.users.find? (fun u => u.email == login_data.email) with
  | none => (db, Except.error "Invalid email or password")
  | some user =>
    match user.password_hash with
    | none => (db, Except.error "Invalid email or password")
    | some h =>
      if ¬ verify_password digestF login_data.password h then
        (db, Except.error "Invalid email or password")
      else
        let access_token := create_access_token secret now user.id user.email none
        let refresh_expires : Int :=
          if login_data.remember_me then secondsOfDays 30
          else secondsOfDays REFRESH_TOKEN_EXPIRE_DAYS
        let refresh_token :=
          create_refresh_token secret now user.id user.email (some refresh_expires)
        let session : SessionRec :=
          { id := sessionId, user_id := user.id,
            token := strTake (enc access_token) 100,
            refresh_token := strTake (enc refresh_token) 100,
            user_agent := user_agent, ip_address := ip_address,
            expires_at := now + refresh_expires, created_at := now }
        let user2 : UserRec := { user with last_login_at := some now }
        let db2 : DB :=
          { db with
              users := db.users.map (fun u => if u.id = user.id then user2 else u),
              sessions := db.sessions ++ [session] }
        (db2, Except.ok
          { access_token := access_token, refresh_token := refresh_token,
            token_type := "bearer",
            expires_in := ACCESS_TOKEN_EXPIRE_MINUTES * 60, user := user2 })

/-- `refresh_access_token` (auth_service.py:194): pure reads, no commit. -/
def refresh_access_token (secret : String) (now : Int)
    (db : DB) (refresh_token_input : JwtToken) :
    DB × Except String RefreshResponse :=
  match verify_token secret now refresh_token_input "refresh" with
  | none => (db, Except.error "Invalid or expired refresh token")
  | some payload =>
    match payload.sub with
    | none => (db, Except.error "Invalid token payload")
    | some user_id =>
      match db.users.find? (fun u => u.id == user_id) with
      | none => (db, Except.error "User not found")
      | some user =>
        (db, Except.ok
          { access_token := create_access_token secret now user.id user.email none,
            token_type := "bearer",
            expires_in := ACCESS_TOKEN_EXPIRE_MINUTES * 60 })

/-- `request_password_reset` (auth_service.py:244): always returns
`true`; when the email is unknown it touches nothing. -/
def request_password_reset (resetId reset_token : String) (now : Int)
    (db : DB) (email : String) : DB × Bool :=
  match db.users.find? (fun u => u.email == email) with
  | none => (db, true)
  | some user =>
    let password_reset : PasswordResetRec :=
      { id := resetId, email := user.email, token := reset_token,
        expires_at := now + secondsOfHours 1, used_at := none,
        created_at := now }
    ({ db with password_resets := db.password_resets ++ [password_reset] }, true)

/-- `reset_password` (auth_service.py:288).  The lookup filters on
`token = ... AND used_at IS NULL`, so a used token is indistinguishable
from an unknown one. -/
def reset_password (digestF : String → String → String) (salt : String)
    (now : Int) (db : DB) (token new_password : String) :
    DB × Except String Bool :=
  match db.password_resets.find?
      (fun r => r.token == token && r.used_at == none) with
  | none => (db, Except.error "Invalid or already used reset token")
  | some password_reset =>
    if now > password_reset.expires_at then
      (db, Except.error "Reset token has expired")
    else
      match db.users.find? (fun u => u.email == password_reset.email) with
      | none => (db, Except.error "User not found")
      | some user =>
        let user2 : UserRec :=
          { user with
              password_hash := some (hash_password digestF salt new_password),
              updated_at := now }
        let pr2 : PasswordResetRec := { password_reset with used_at := some now }
        ({ db with
            users := db.users.map (fun u => if u.id = user.id then user2 else u),
            password_resets := db.password_resets.map
              (fun r => if r.id = password_reset.id then pr2 else r) },
          Except.ok true)

/-- `verify_email` (auth_service.py:344): symmetric to `reset_password`
over `email_verifications`/`verified_at`, and it also flips the owning
user's `email_verified` flag. -/
def verify_email (now : Int) (db : DB) (token : String) :
    DB × Except String Bool :=
  match db.email_verifications.find?
      (fun r => r.token == token && r.verified_at == none) with
  | none => (db, Except.error "Invalid or already used verification token")
  | some email_verification =>
    if now > email_verification.expires_at then
      (db, Except.error "Verification token has expired")
    else
      match db.users.find? (fun u => u.email == email_verification.email) with
      | none => (db, Except.error "User not found")
      | some user =>
        let user2 : UserRec :=
          { user with
              email_verified := true, email_verified_at := some now,
              updated_at := now }
        let ev2 : EmailVerificationRec :=
          { email_verification with verified_at := some now }
        ({ db with
            users := db.users.map (fun u => if u.id = user.id then user2 else u),
            email_verifications := db.email_verifications.map
              (fun r => if r.id = email_verification.id then ev2 else r) },
          Except.ok true)

/-- `logout_user` (auth_service.py:449).  With a refresh token it runs
`SELECT ... WHERE user_id = ... AND refresh_token LIKE rt[:100] + "%"`
through `scalar_one_or_none`: no matching row is a no-op, exactly one
is deleted, and several raise `MultipleResultsFound`, which propagates
out of the service.  With no token it deletes every session of the
user.  On every non-raising path it returns `true` after commit. -/
def logout_user (db : DB) (user_id : String)
    (refresh_token : Option String) : Except DbError (DB × Bool) :=
  match refresh_token with
  | some rt =>
    match db.sessions.filter
        (fun s => s.user_id == user_id
          && likeMatches (strTake rt 100 ++ "%") s.refresh_token) with
    | [] => Except.ok (db, true)
    | [session] =>
      Except.ok
        ({ db with sessions := db.sessions.filter (fun s => s.id ≠ session.id) },
          true)
    | _ => Except.error DbError.multipleResultsFound
  | none =>
    Except.ok
      ({ db with sessions := db.sessions.filter (fun s => s.user_id ≠ user_id) },
        true)

/-- `logout` route (routes/auth.py:163): `logout_all_devices = true`
forces the all-devices path regardless of the supplied token (an
escaping exception would become a 500 above this layer). -/
def logout_route (db : DB) (current_user_id : String)
    (logout_all_devices : Bool) (refresh_token : Option String) :
    Except DbError (DB × Bool) :=
  let token_to_invalidate := if ¬ logout_all_devices then refresh_token else none
  logout_user db current_user_id token_to_invalidate

/-! ## Theorems -/

/-- Concrete decoded payload at the expiry boundary (exp = 100). -/
def boundaryClaims : JwtClaims :=
  { sub := some "user-1", email := some "a@x.com", exp := some 100, iat := 0,
    type := "access" }

/-- C1: counterexample — with current time equal to the `exp` claim
(now = exp = 100, valid signature, matching type) `verify_token` accepts
the token and returns its claims, although the claim requires rejection
whenever current time ≥ exp: both expiry checks in the code are strict
(`e < now`). -/
theorem C1_counterexample :
    (100 : Int) ≥ 100 ∧
      verify_token "k" 100 (JwtToken.signed "k" boundaryClaims) "access"
        = some boundaryClaims := by
  exact ⟨le_refl 100, rfl⟩

/-- C1 (amended): token verification returns the decoded claims iff the
signature key matches, the `type` claim equals the expected type, and the
token carries an `exp` claim with current time ≤ exp (rejection happens
only when current time is strictly greater than exp, or when `exp` is
absent); undecodable tokens are rejected; and tokens minted by
`create_access_token` / `create_refresh_token` are rejected under the
opposite expected type, while on success their decoded claims carry
`sub` equal to the user identifier. -/
theorem C1_verify_token_amended (secret key expected_type : String)
    (now : Int) (c : JwtClaims) :
    (verify_token secret now (JwtToken.signed key c) expected_type = some c
      ↔ key = secret ∧ c.type = expected_type ∧ ∃ e, c.exp = some e ∧ now ≤ e)
    ∧ verify_token secret now JwtToken.garbage expected_type = none
    ∧ (∀ uid em d now0,
        verify_token secret now (create_access_token secret now0 uid em d)
            "refresh" = none
        ∧ verify_token secret now (create_refresh_token secret now0 uid em d)
            "access" = none
        ∧ (∀ p,
            verify_token secret now (create_access_token secret now0 uid em d)
              "access" = some p → p.sub = some uid)
        ∧ (∀ p,
            verify_token secret now (create_refresh_token secret now0 uid em d)
              "refresh" = some p → p.sub = some uid)) := by
  refine ⟨?_, rfl, ?_⟩
  · constructor
    · intro h
      by_cases hk : key = secret
      · cases hcexp : c.exp with
        | none => simp [verify_token, jose_decode, hk, hcexp] at h
        | some e =>
          by_cases hlt : e < now
          · simp [verify_token, jose_decode, hk, hcexp, hlt] at h
          · by_cases hty : c.type = expected_type
            · exact ⟨hk, hty, e, rfl, by omega⟩
            · simp [verify_token, jose_decode, hk, hcexp, hlt, hty] at h
      · simp [verify_token, jose_decode, hk] at h
    · rintro ⟨hk, hty, e, hcexp, hle⟩
      have hlt : ¬ e < now := by omega
      simp [verify_token, jose_decode, hk, hcexp, hlt, hty]
  · intro uid em d now0
    refine ⟨?_, ?_, ?_, ?_⟩
    · cases d with
      | none =>
        by_cases hlt :
            now0 + secondsOfMinutes ACCESS_TOKEN_EXPIRE_MINUTES < now <;>
          simp [verify_token, jose_decode, create_access_token, hlt]
      | some dv =>
        by_cases hd : dv ≠ 0
        · by_cases hlt : now0 + dv < now <;>
            simp [verify_token, jose_decode, create_access_token, hd, hlt]
        · by_cases hlt :
              now0 + secondsOfMinutes ACCESS_TOKEN_EXPIRE_MINUTES < now <;>
            simp [verify_token, jose_decode, create_access_token, hd, hlt]
    · cases d with
      | none =>
        by_cases hlt :
            now0 + secondsOfDays REFRESH_TOKEN_EXPIRE_DAYS < now <;>
          simp [verify_token, jose_decode, create_refresh_token, hlt]
      | some dv =>
        by_cases hd : dv ≠ 0
        · by_cases hlt : now0 + dv < now <;>
            simp [verify_token, jose_decode, create_refresh_token, hd, hlt]
        · by_cases hlt :
              now0 + secondsOfDays REFRESH_TOKEN_EXPIRE_DAYS < now <;>
            simp [verify_token, jose_decode, create_refresh_token, hd, hlt]
    · intro p hp
      cases d with
      | none =>
        by_cases hlt :
            now0 + secondsOfMinutes ACCESS_TOKEN_EXPIRE_MINUTES < now
        · simp [verify_token, jose_decode, create_access_token, hlt] at hp
        · simp [verify_token, jose_decode, create_access_token, hlt] at hp
          subst hp; rfl
      | some dv =>
        by_cases hd : dv ≠ 0
        · by_cases hlt : now0 + dv < now
          · simp [verify_token, jose_decode, create_access_token, hd, hlt]
              at hp
          · simp [verify_token, jose_decode, create_access_token, hd, hlt]
              at hp
            subst hp; rfl
        · by_cases hlt :
              now0 + secondsOfMinutes ACCESS_TOKEN_EXPIRE_MINUTES < now
          · simp [verify_token, jose_decode, create_access_token, hd, hlt]
              at hp
          · simp [verify_token, jose_decode, create_access_token, hd, hlt]
              at hp
            subst hp; rfl
    · intro p hp
      cases d with
      | none =>
        by_cases hlt :
            now0 + secondsOfDays REFRESH_TOKEN_EXPIRE_DAYS < now
        · simp [verify_token, jose_decode, create_refresh_token, hlt] at hp
        · simp [verify_token, jose_decode, create_refresh_token, hlt] at hp
          subst hp; rfl
      | some dv =>
        by_cases hd : dv ≠ 0
        · by_cases hlt : now0 + dv < now
          · simp [verify_token, jose_decode, create_refresh_token, hd, hlt]
              at hp
          · simp [verify_token, jose_decode, create_refresh_token, hd, hlt]
              at hp
            subst hp; rfl
        · by_cases hlt :
              now0 + secondsOfDays REFRESH_TOKEN_EXPIRE_DAYS < now
          · simp [verify_token, jose_decode, create_refresh_token, hd, hlt]
              at hp
          · simp [verify_token, jose_decode, create_refresh_token, hd, hlt]
              at hp
            subst hp; rfl

/-- C1 witness: the amended characterization applied at a concrete
valid, unexpired access token. -/
theorem C1_verify_token_amended_witness :
    verify_token "k" 0 (JwtToken.signed "k" boundaryClaims) "access"
      = some boundaryClaims :=
  (C1_verify_token_amended "k" "k" "access" 0 boundaryClaims).1.mpr
    ⟨rfl, rfl, ⟨100, rfl, by decide⟩⟩

/-- Helper: successful verification pins down the token shape: it is
signed under the configured secret, carries the expected type, and its
`exp` has not strictly passed. -/
theorem verify_token_inv (secret expected_type : String) (now : Int)
    (tok : JwtToken) (c : JwtClaims)
    (h : verify_token secret now tok expected_type = some c) :
    tok = JwtToken.signed secret c ∧ c.type = expected_type
      ∧ ∃ e, c.exp = some e ∧ ¬ e < now := by
  cases tok with
  | garbage => simp [verify_token, jose_decode] at h
  | signed key cl =>
    by_cases hk : key = secret
    · cases hce : cl.exp with
      | none => simp [verify_token, jose_decode, hk, hce] at h
      | some e =>
        by_cases hlt : e < now
        · simp [verify_token, jose_decode, hk, hce, hlt] at h
        · by_cases hty : cl.type = expected_type
          · simp [verify_token, jose_decode, hk, hce, hlt, hty] at h
            subst h
            exact ⟨by rw [hk], hty, e, hce, hlt⟩
          · simp [verify_token, jose_decode, hk, hce, hlt, hty] at h
    · simp [verify_token, jose_decode, hk] at h

/-- Helper: a signed token with matching type and a live `exp` claim
verifies to its claims. -/
theorem verify_token_of_live (secret expected_type : String) (now : Int)
    (c : JwtClaims) (e : Int) (hty : c.type = expected_type)
    (hce : c.exp = some e) (hlt : ¬ e < now) :
    verify_token secret now (JwtToken.signed secret c) expected_type
      = some c := by
  simp [verify_token, jose_decode, hce, hlt, hty]

/-- C2: single-use before expiry, for both consumption flows.  If every
stored row carrying the supplied token is already used, the operation
fails with the invalid-or-used error — independently of the current time,
so a used token never reports expiry; if the lookup finds an unused row
whose expiry has strictly passed, the operation fails with the expired
error.  Both flows leave the store unchanged on these failures. -/
theorem C2_single_use_then_expiry (digestF : String → String → String)
    (salt : String) (now : Int) (db : DB) (tok newpw : String) :
    ((∀ r ∈ db.password_resets, r.token = tok → r.used_at ≠ none) →
      reset_password digestF salt now db tok newpw
        = (db, Except.error "Invalid or already used reset token"))
    ∧ (∀ pr, db.password_resets.find?
          (fun r => r.token == tok && r.used_at == none) = some pr →
        now > pr.expires_at →
        reset_password digestF salt now db tok newpw
          = (db, Except.error "Reset token has expired"))
    ∧ ((∀ r ∈ db.email_verifications, r.token = tok → r.verified_at ≠ none) →
      verify_email now db tok
        = (db, Except.error "Invalid or already used verification token"))
    ∧ (∀ ev, db.email_verifications.find?
          (fun r => r.token == tok && r.verified_at == none) = some ev →
        now > ev.expires_at →
        verify_email now db tok
          = (db, Except.error "Verification token has expired")) := by
  refine ⟨?_, ?_, ?_, ?_⟩
  · intro hused
    have hfind : db.password_resets.find?
        (fun r => r.token == tok && r.used_at == none) = none := by
      rw [List.find?_eq_none]
      intro r hr
      simp only [Bool.and_eq_true, beq_iff_eq, not_and]
      intro h1 h2
      exact hused r hr h1 h2
    simp [reset_password, hfind]
  · intro pr hf hexp
    simp [reset_password, hf, hexp]
  · intro hused
    have hfind : db.email_verifications.find?
        (fun r => r.token == tok && r.verified_at == none) = none := by
      rw [List.find?_eq_none]
      intro r hr
      simp only [Bool.and_eq_true, beq_iff_eq, not_and]
      intro h1 h2
      exact hused r hr h1 h2
    simp [verify_email, hfind]
  · intro ev hf hexp
    simp [verify_email, hf, hexp]

/-- C3: a duplicate registration fails with the identical
`Email already registered` outcome whether caught by the pre-check
(email already present at check time) or by the commit-time uniqueness
constraint (email present at commit time), and in both failure cases
the returned store is exactly the commit-time store: the first user's
row is untouched and no partial `users` or `email_verifications` row
persists. -/
theorem C3_register_duplicate (digestF : String → String → String)
    (salt userId verifId vtok : String) (now : Int)
    (dbCheck dbCommit : DB) (ud : UserRegister) :
    ((∃ u ∈ dbCheck.users, u.email = ud.email) →
      register_user digestF salt userId verifId vtok now dbCheck dbCommit ud
        = (dbCommit, Except.error "Email already registered"))
    ∧ ((∃ u ∈ dbCommit.users, u.email = ud.email) →
      register_user digestF salt userId verifId vtok now dbCheck dbCommit ud
        = (dbCommit, Except.error "Email already registered")) := by
  constructor
  · rintro ⟨u, hu, he⟩
    have hpre : dbCheck.users.any (fun u2 => u2.email == ud.email) = true :=
      List.any_eq_true.mpr ⟨u, hu, by simp [he]⟩
    simp [register_user, hpre]
  · rintro ⟨u, hu, he⟩
    by_cases hpre : dbCheck.users.any (fun u2 => u2.email == ud.email) = true
    · simp [register_user, hpre]
    · have hcom : dbCommit.users.any (fun u2 => u2.email == ud.email) = true :=
        List.any_eq_true.mpr ⟨u, hu, by simp [he]⟩
      simp [register_user, hpre, hcom]

/-- C4: account-enumeration resistance.  All three login failures —
unknown email, user without a password hash, wrong password — produce
the same `Invalid email or password` error and leave the store
unchanged; forgot-password returns the same success value `true`
whether or not the email exists, and when it does not exist the store
is untouched (no `password_resets` row is created). -/
theorem C4_enumeration_resistance (digestF : String → String → String)
    (secret : String) (enc : JwtToken → String)
    (sessionId resetId rtok : String) (now : Int) (db : DB)
    (login_data : UserLogin) (ua ip : Option String) :
    ((∀ u ∈ db.users, u.email ≠ login_data.email) →
      login_user digestF secret enc sessionId now db login_data ua ip
        = (db, Except.error "Invalid email or password"))
    ∧ (∀ user, db.users.find? (fun u => u.email == login_data.email)
          = some user →
        user.password_hash = none →
        login_user digestF secret enc sessionId now db login_data ua ip
          = (db, Except.error "Invalid email or password"))
    ∧ (∀ user h, db.users.find? (fun u => u.email == login_data.email)
          = some user →
        user.password_hash = some h →
        verify_password digestF login_data.password h = false →
        login_user digestF secret enc sessionId now db login_data ua ip
          = (db, Except.error "Invalid email or password"))
    ∧ ((∀ u ∈ db.users, u.email ≠ login_data.email) →
      request_password_reset resetId rtok now db login_data.email
        = (db, true))
    ∧ (∀ user, db.users.find? (fun u => u.email == login_data.email)
          = some user →
        (request_password_reset resetId rtok now db login_data.email).2
          = true) := by
  have habs : (∀ u ∈ db.users, u.email ≠ login_data.email) →
      db.users.find? (fun u => u.email == login_data.email) = none := by
    intro hne
    rw [List.find?_eq_none]
    intro u hu
    simp only [beq_iff_eq]
    exact hne u hu
  refine ⟨?_, ?_, ?_, ?_, ?_⟩
  · intro hne
    simp [login_user, habs hne]
  · intro user hf hph
    simp [login_user, hf, hph]
  · intro user h hf hph hv
    simp [login_user, hf, hph, hv]
  · intro hne
    simp [request_password_reset, habs hne]
  · intro user hf
    simp [request_password_reset, hf]

/-- Observation helper: the `type` claim of a decodable token. -/
def tokenType : JwtToken → Option String
  | JwtToken.garbage => none
  | JwtToken.signed _ c => some c.type

/-- Observation helper: the `exp` claim of a decodable token. -/
def tokenExp : JwtToken → Option Int
  | JwtToken.garbage => none
  | JwtToken.signed _ c => c.exp

/-- C5: a successful token refresh is effect-free.  The returned store
is the input store (no session row created, modified or deleted, no user
field mutated), the response carries a freshly minted token of type
`access`, and the original refresh token stays usable: at any instant at
which it still verifies as a refresh token, calling refresh again
succeeds against the unchanged store (no rotation). -/
theorem C5_refresh_frame (secret : String) (now : Int) (db : DB)
    (tok : JwtToken) (db2 : DB) (resp : RefreshResponse)
    (h : refresh_access_token secret now db tok = (db2, Except.ok resp)) :
    db2 = db
    ∧ tokenType resp.access_token = some "access"
    ∧ (∀ now2 : Int, (verify_token secret now2 tok "refresh").isSome →
        ∃ resp2, refresh_access_token secret now2 db tok
          = (db, Except.ok resp2)) := by
  cases hv : verify_token secret now tok "refresh" with
  | none => simp [refresh_access_token, hv] at h
  | some payload =>
    cases hsub : payload.sub with
    | none => simp [refresh_access_token, hv, hsub] at h
    | some uid =>
      cases hu : db.users.find? (fun u => u.id == uid) with
      | none => simp [refresh_access_token, hv, hsub, hu] at h
      | some user =>
        simp only [refresh_access_token, hv, hsub, hu, Prod.mk.injEq,
          Except.ok.injEq] at h
        obtain ⟨hdb, hresp⟩ := h
        subst hresp
        refine ⟨hdb.symm, rfl, ?_⟩
        intro now2 hsome
        obtain ⟨c2, hc2⟩ := Option.isSome_iff_exists.mp hsome
        have h1 := verify_token_inv secret "refresh" now tok payload hv
        have h2 := verify_token_inv secret "refresh" now2 tok c2 hc2
        have hcc : c2 = payload := by
          rw [h1.1] at h2
          exact (JwtToken.signed.injEq _ _ _ _).mp h2.1 |>.2 |>.symm
        rw [hcc] at hc2
        have hok : refresh_access_token secret now2 db tok
            = (db, Except.ok
                { access_token :=
                    create_access_token secret now2 user.id user.email none,
                  token_type := "bearer",
                  expires_in := ACCESS_TOKEN_EXPIRE_MINUTES * 60 }) := by
          simp [refresh_access_token, hc2, hsub, hu]
        exact ⟨_, hok⟩

/-- C6: every session row created at a successful login expires exactly
at its creation time plus the refresh lifetime requested at that login —
30 days with `remember_me`, the configured `REFRESH_TOKEN_EXPIRE_DAYS`
(7 days) without — and the refresh token minted alongside carries the
same lifetime in its `exp` claim. -/
theorem C6_session_expiry (digestF : String → String → String)
    (secret : String) (enc : JwtToken → String) (sessionId : String)
    (now : Int) (db : DB) (login_data : UserLogin) (ua ip : Option String)
    (db2 : DB) (resp : TokenResponse)
    (h : login_user digestF secret enc sessionId now db login_data ua ip
      = (db2, Except.ok resp)) :
    ∃ s : SessionRec,
      db2.sessions = db.sessions ++ [s]
      ∧ s.created_at = now
      ∧ s.expires_at = s.created_at +
          (if login_data.remember_me then secondsOfDays 30
            else secondsOfDays REFRESH_TOKEN_EXPIRE_DAYS)
      ∧ secondsOfDays REFRESH_TOKEN_EXPIRE_DAYS = secondsOfDays 7
      ∧ tokenExp resp.refresh_token
          = some (now + (if login_data.remember_me then secondsOfDays 30
              else secondsOfDays REFRESH_TOKEN_EXPIRE_DAYS)) := by
  cases hf : db.users.find? (fun u => u.email == login_data.email) with
  | none => simp [login_user, hf] at h
  | some user =>
    cases hph : user.password_hash with
    | none => simp [login_user, hf, hph] at h
    | some hs =>
      by_cases hv : verify_password digestF login_data.password hs = true
      · simp only [login_user, hf, hph, hv, not_true_eq_false, if_false,
          Prod.mk.injEq, Except.ok.injEq] at h
        obtain ⟨hdb, hresp⟩ := h
        cases hrm : login_data.remember_me with
        | false =>
          simp only [hrm, Bool.false_eq_true, if_false] at hdb hresp
          subst hdb
          subst hresp
          refine ⟨_, rfl, rfl, ?_, rfl, ?_⟩
          · norm_num
          · norm_num [create_refresh_token, tokenExp, secondsOfDays,
              REFRESH_TOKEN_EXPIRE_DAYS]
        | true =>
          simp only [hrm, if_true] at hdb hresp
          subst hdb
          subst hresp
          refine ⟨_, rfl, rfl, ?_, rfl, ?_⟩
          · norm_num
          · norm_num [create_refresh_token, tokenExp, secondsOfDays]
      · have hv2 : verify_password digestF login_data.password hs = false := by
          revert hv
          cases verify_password digestF login_data.password hs <;> simp
        simp [login_user, hf, hph, hv2] at h

/-- C7: password-hashing round trip.  Verifying a password against its
own hash succeeds; verifying a different password fails whenever the two
passwords' digests under the stored salt differ (the formal reading of
`with overwhelming probability` for a collision-resistant digest); and a
mismatch yields the return value `false` — exactly when the underlying
argon2 check raises `VerifyMismatchError`, which is caught, never
propagated. -/
theorem C7_password_roundtrip (digestF : String → String → String)
    (salt p p1 p2 : String) :
    verify_password digestF p (hash_password digestF salt p) = true
    ∧ (p1 ≠ p2 → digestF salt p1 ≠ digestF salt p2 →
        verify_password digestF p1 (hash_password digestF salt p2) = false)
    ∧ (∀ h : Argon2Hash, verify_password digestF p h = false ↔
        ph_verify digestF h p = Argon2VerifyOutcome.verifyMismatchError) := by
  refine ⟨?_, ?_, ?_⟩
  · simp [verify_password, ph_verify, hash_password, ph_hash]
  · intro hne hdig
    simp [verify_password, ph_verify, hash_password, ph_hash, hdig]
  · intro h
    by_cases hd : digestF h.salt p = h.digest <;>
      simp [verify_password, ph_verify, hd]

/-- C8: a successful email verification (unused token found, not
expired, owning user found by the token's email) sets the user's
`email_verified` flag with the verification timestamp, marks the token
used (`verified_at` set), and both updates land in the single store
returned by the one commit; the other tables are untouched. -/
theorem C8_verify_email_success (now : Int) (db : DB) (tok : String)
    (db2 : DB) (r : Bool)
    (h : verify_email now db tok = (db2, Except.ok r)) :
    r = true ∧
    ∃ ev user,
      db.email_verifications.find?
          (fun x => x.token == tok && x.verified_at == none) = some ev
      ∧ ¬ now > ev.expires_at
      ∧ db.users.find? (fun u => u.email == ev.email) = some user
      ∧ { user with
            email_verified := true,
            email_verified_at := some now,
            updated_at := now } ∈ db2.users
      ∧ { ev with verified_at := some now } ∈ db2.email_verifications
      ∧ db2.sessions = db.sessions
      ∧ db2.password_resets = db.password_resets := by
  cases hev : db.email_verifications.find?
      (fun x => x.token == tok && x.verified_at == none) with
  | none => simp [verify_email, hev] at h
  | some ev =>
    by_cases hexp : now > ev.expires_at
    · simp [verify_email, hev, hexp] at h
    · cases hu : db.users.find? (fun u => u.email == ev.email) with
      | none => simp [verify_email, hev, hexp, hu] at h
      | some user =>
        simp [verify_email, hev, hexp, hu] at h
        obtain ⟨hdb, hr⟩ := h
        subst hdb
        subst hr
        refine ⟨rfl, ev, user, rfl, hexp, hu, ?_, ?_, rfl, rfl⟩
        · have hmem : user ∈ db.users := List.mem_of_find?_eq_some hu
          have := List.mem_map_of_mem
            (fun u => if u.id = user.id then
              { user with
                email_verified := true,
                email_verified_at := some now,
                updated_at := now }
              else u) hmem
          simpa using this
        · have hmem : ev ∈ db.email_verifications :=
            List.mem_of_find?_eq_some hev
          have := List.mem_map_of_mem
            (fun x => if x.id = ev.id then { ev with verified_at := some now }
              else x) hmem
          simpa using this

/-- C9: logout.  The all-devices path (no refresh token supplied, which
is what the route forces when `logout_all_devices` is set) succeeds and
deletes exactly the authenticated user's session rows: none of that
user's rows survive, every other user's row survives, and the other
tables are untouched.  Both paths are idempotent: when nothing matches —
no session row for the user, or no session of the user whose stored
refresh token the `LIKE rt[:100] + "%"` pattern matches — the call still
succeeds with `true` and the store is unchanged. -/
theorem C9_logout_all_and_idempotent (db : DB) (uid rt : String)
    (rtOpt : Option String) :
    (∃ db2, logout_user db uid none = Except.ok (db2, true)
      ∧ (∀ s ∈ db2.sessions, s.user_id ≠ uid)
      ∧ (∀ s ∈ db.sessions, s.user_id ≠ uid → s ∈ db2.sessions)
      ∧ db2.users = db.users
      ∧ db2.password_resets = db.password_resets
      ∧ db2.email_verifications = db.email_verifications)
    ∧ logout_route db uid true rtOpt = logout_user db uid none
    ∧ ((∀ s ∈ db.sessions, s.user_id ≠ uid) →
        logout_user db uid none = Except.ok (db, true))
    ∧ ((∀ s ∈ db.sessions, ¬ (s.user_id = uid
          ∧ likeMatches (strTake rt 100 ++ "%") s.refresh_token = true)) →
        logout_user db uid (some rt) = Except.ok (db, true)) := by
  refine ⟨⟨_, rfl, ?_, ?_, rfl, rfl, rfl⟩, rfl, ?_, ?_⟩
  · intro s hs
    have := List.of_mem_filter hs
    simpa using this
  · intro s hs hne
    exact List.mem_filter.mpr ⟨hs, by simpa using hne⟩
  · intro hnone
    have hfil : db.sessions.filter (fun s => decide (s.user_id ≠ uid))
        = db.sessions := by
      rw [List.filter_eq_self]
      intro s hs
      simpa using hnone s hs
    show Except.ok
        ({ db with
            sessions := db.sessions.filter (fun s => decide (s.user_id ≠ uid)) },
          true) = Except.ok (db, true)
    rw [hfil]
  · intro hno
    have hfil : db.sessions.filter
        (fun s => s.user_id == uid
          && likeMatches (strTake rt 100 ++ "%") s.refresh_token) = [] := by
      rw [List.filter_eq_nil_iff]
      intro s hs
      simp only [Bool.and_eq_true, beq_iff_eq, not_and]
      intro h1 h2
      exact hno s hs ⟨h1, h2⟩
    simp [logout_user, hfil]

/-- C10: on every successful login the `expires_in` field of the token
response equals the configured access-token lifetime in seconds
(`ACCESS_TOKEN_EXPIRE_MINUTES * 60 = 900`), matches the minted access
token's `exp` minus issuance time, and does not depend on the
`remember_me` flag, which only extends the refresh token. -/
theorem C10_expires_in_access_lifetime (digestF : String → String → String)
    (secret : String) (enc : JwtToken → String) (sessionId : String)
    (now : Int) (db : DB) (login_data : UserLogin) (ua ip : Option String)
    (db2 : DB) (resp : TokenResponse)
    (h : login_user digestF secret enc sessionId now db login_data ua ip
      = (db2, Except.ok resp)) :
    resp.expires_in = ACCESS_TOKEN_EXPIRE_MINUTES * 60
    ∧ resp.expires_in = 900
    ∧ tokenExp resp.access_token = some (now + resp.expires_in)
    ∧ (∀ rm db3 resp2,
        login_user digestF secret enc sessionId now db
            { login_data with remember_me := rm } ua ip
          = (db3, Except.ok resp2) →
        resp2.expires_in = resp.expires_in) := by
  cases hf : db.users.find? (fun u => u.email == login_data.email) with
  | none => simp [login_user, hf] at h
  | some user =>
    cases hph : user.password_hash with
    | none => simp [login_user, hf, hph] at h
    | some hs =>
      by_cases hv : verify_password digestF login_data.password hs = true
      · simp only [login_user, hf, hph, hv, not_true_eq_false, if_false,
          Prod.mk.injEq, Except.ok.injEq] at h
        obtain ⟨hdb, hresp⟩ := h
        subst hresp
        refine ⟨rfl, by norm_num [ACCESS_TOKEN_EXPIRE_MINUTES], ?_, ?_⟩
        · simp [create_access_token, tokenExp, secondsOfMinutes]
        · intro rm db3 resp2 h2
          cases hf2 : db.users.find?
              (fun u => u.email ==
                ({ login_data with remember_me := rm } : UserLogin).email) with
          | none => simp [login_user, hf2] at h2
          | some user2 =>
            cases hph2 : user2.password_hash with
            | none => simp [login_user, hf2, hph2] at h2
            | some hs2 =>
              by_cases hv2 : verify_password digestF
                  ({ login_data with remember_me := rm } : UserLogin).password
                  hs2 = true
              · simp only [login_user, hf2, hph2, hv2, not_true_eq_false,
                  if_false, Prod.mk.injEq, Except.ok.injEq] at h2
                obtain ⟨hdb3, hresp2⟩ := h2
                subst hresp2
                rfl
              · have hv3 : verify_password digestF
                    ({ login_data with remember_me := rm } : UserLogin).password
                    hs2 = false := by
                  revert hv2
                  cases verify_password digestF
                    ({ login_data with remember_me := rm } : UserLogin).password
                    hs2 <;> simp
                simp [login_user, hf2, hph2, hv3] at h2
      · have hv2 : verify_password digestF login_data.password hs = false := by
          revert hv
          cases verify_password digestF login_data.password hs <;> simp
        simp [login_user, hf, hph, hv2] at h

/-! ## Concrete fixtures for the witness checks -/

/-- Concrete argon2 digest function for evaluations. -/
def wDigestF : String → String → String := fun salt pw => salt ++ pw

def wHash : Argon2Hash := hash_password wDigestF "salt1" "Passw0rd1"

def wUser : UserRec :=
  { id := "u1", email := "a@x.com", password_hash := some wHash,
    name := some "Alice", preferred_language := "en",
    email_verified := false, email_verified_at := none,
    created_at := 0, updated_at := 0, last_login_at := none }

def wSession : SessionRec :=
  { id := "s1", user_id := "u1", token := "at1", refresh_token := "rt1",
    user_agent := none, ip_address := none, expires_at := 1000,
    created_at := 0 }

def wSessionOther : SessionRec :=
  { id := "s2", user_id := "u2", token := "at2", refresh_token := "rt2",
    user_agent := none, ip_address := none, expires_at := 1000,
    created_at := 0 }

def wResetUsed : PasswordResetRec :=
  { id := "pr1", email := "a@x.com", token := "t1", expires_at := 1000,
    used_at := some 5, created_at := 0 }

def wResetExpired : PasswordResetRec :=
  { id := "pr2", email := "a@x.com", token := "t2", expires_at := 3,
    used_at := none, created_at := 0 }

def wVerifUsed : EmailVerificationRec :=
  { id := "ev1", email := "a@x.com", token := "v1", expires_at := 1000,
    verified_at := some 5, created_at := 0 }

def wVerifExpired : EmailVerificationRec :=
  { id := "ev2", email := "a@x.com", token := "v2", expires_at := 3,
    verified_at := none, created_at := 0 }

def wVerifLive : EmailVerificationRec :=
  { id := "ev3", email := "a@x.com", token := "v3", expires_at := 1000,
    verified_at := none, created_at := 0 }

def wDb : DB :=
  { users := [wUser], sessions := [wSession, wSessionOther],
    password_resets := [wResetUsed, wResetExpired],
    email_verifications := [wVerifUsed, wVerifExpired, wVerifLive] }

def wDbEmpty : DB :=
  { users := [], sessions := [], password_resets := [],
    email_verifications := [] }

/-- Concrete JWT renderer (only its first 100 characters are stored). -/
def wEnc : JwtToken → String := fun _ => "jwt-string"

def wLoginData : UserLogin :=
  { email := "a@x.com", password := "Passw0rd1", remember_me := false }

def wUserLoggedIn : UserRec := { wUser with last_login_at := some 20 }

def wLoginSession : SessionRec :=
  { id := "s9", user_id := "u1", token := "jwt-string",
    refresh_token := "jwt-string", user_agent := none, ip_address := none,
    expires_at := 20 + secondsOfDays REFRESH_TOKEN_EXPIRE_DAYS,
    created_at := 20 }

def wLoginDb2 : DB :=
  { users := [wUserLoggedIn],
    sessions := [wSession, wSessionOther, wLoginSession],
    password_resets := wDb.password_resets,
    email_verifications := wDb.email_verifications }

def wLoginResp : TokenResponse :=
  { access_token := create_access_token "k" 20 "u1" "a@x.com" none,
    refresh_token := create_refresh_token "k" 20 "u1" "a@x.com"
      (some (secondsOfDays REFRESH_TOKEN_EXPIRE_DAYS)),
    token_type := "bearer",
    expires_in := ACCESS_TOKEN_EXPIRE_MINUTES * 60,
    user := wUserLoggedIn }

def wRefreshClaims : JwtClaims :=
  { sub := some "u1", email := some "a@x.com", exp := some 1000, iat := 0,
    type := "refresh" }

def wRefreshTok : JwtToken := JwtToken.signed "k" wRefreshClaims

def wRefreshResp : RefreshResponse :=
  { access_token := create_access_token "k" 10 "u1" "a@x.com" none,
    token_type := "bearer",
    expires_in := ACCESS_TOKEN_EXPIRE_MINUTES * 60 }

def wRegData : UserRegister :=
  { email := "a@x.com", password := "Passw0rd2", name := none,
    preferred_language := none }

def wBadLogin : UserLogin :=
  { email := "b@y.com", password := "whatever1", remember_me := false }

def wWrongPw : UserLogin :=
  { email := "a@x.com", password := "WrongPass1", remember_me := false }

def wUserVerified : UserRec :=
  { wUser with
      email_verified := true, email_verified_at := some 10,
      updated_at := 10 }

def wVerifLiveUsed : EmailVerificationRec :=
  { wVerifLive with verified_at := some 10 }

def wDbVerified : DB :=
  { users := [wUserVerified],
    sessions := wDb.sessions,
    password_resets := wDb.password_resets,
    email_verifications := [wVerifUsed, wVerifExpired, wVerifLiveUsed] }

/-! ## Witness checks -/

/-- C2 witness: on a concrete store, a used reset token fails as
invalid-or-used (not expired), an unused expired one fails as expired,
and likewise for the verification flow. -/
theorem C2_single_use_then_expiry_witness :
    reset_password wDigestF "s2" 10 wDb "t1" "NewPassw0rd"
      = (wDb, Except.error "Invalid or already used reset token")
    ∧ reset_password wDigestF "s2" 10 wDb "t2" "NewPassw0rd"
      = (wDb, Except.error "Reset token has expired")
    ∧ verify_email 10 wDb "v1"
      = (wDb, Except.error "Invalid or already used verification token")
    ∧ verify_email 10 wDb "v2"
      = (wDb, Except.error "Verification token has expired") :=
  ⟨(C2_single_use_then_expiry wDigestF "s2" 10 wDb "t1" "NewPassw0rd").1
      (by decide),
   (C2_single_use_then_expiry wDigestF "s2" 10 wDb "t2" "NewPassw0rd").2.1
      wResetExpired (by rfl) (by decide),
   (C2_single_use_then_expiry wDigestF "s2" 10 wDb "v1" "NewPassw0rd").2.2.1
      (by decide),
   (C2_single_use_then_expiry wDigestF "s2" 10 wDb "v2" "NewPassw0rd").2.2.2
      wVerifExpired (by rfl) (by decide)⟩

/-- C3 witness: the concrete duplicate registration fails identically on
the pre-check path and on the commit-constraint path. -/
theorem C3_register_duplicate_witness :
    register_user wDigestF "s3" "u9" "e9" "tok9" 50 wDb wDb wRegData
      = (wDb, Except.error "Email already registered")
    ∧ register_user wDigestF "s3" "u9" "e9" "tok9" 50 wDbEmpty wDb wRegData
      = (wDb, Except.error "Email already registered") :=
  ⟨(C3_register_duplicate wDigestF "s3" "u9" "e9" "tok9" 50 wDb wDb
      wRegData).1 (by decide),
   (C3_register_duplicate wDigestF "s3" "u9" "e9" "tok9" 50 wDbEmpty wDb
      wRegData).2 (by decide)⟩

/-- C4 witness: unknown email and wrong password fail with the same
message on a concrete store; forgot-password reports success in both
cases and leaves the store untouched for the unknown email. -/
theorem C4_enumeration_resistance_witness :
    login_user wDigestF "k" wEnc "s9" 20 wDb wBadLogin none none
      = (wDb, Except.error "Invalid email or password")
    ∧ login_user wDigestF "k" wEnc "s9" 20 wDb wWrongPw none none
      = (wDb, Except.error "Invalid email or password")
    ∧ request_password_reset "pr9" "tok9" 20 wDb wBadLogin.email
      = (wDb, true)
    ∧ (request_password_reset "pr9" "tok9" 20 wDb wWrongPw.email).2
      = true :=
  ⟨(C4_enumeration_resistance wDigestF "k" wEnc "s9" "pr9" "tok9" 20 wDb
      wBadLogin none none).1 (by decide),
   (C4_enumeration_resistance wDigestF "k" wEnc "s9" "pr9" "tok9" 20 wDb
      wWrongPw none none).2.2.1 wUser wHash (by rfl) (by rfl) (by decide),
   (C4_enumeration_resistance wDigestF "k" wEnc "s9" "pr9" "tok9" 20 wDb
      wBadLogin none none).2.2.2.1 (by decide),
   (C4_enumeration_resistance wDigestF "k" wEnc "s9" "pr9" "tok9" 20 wDb
      wWrongPw none none).2.2.2.2 wUser (by rfl)⟩

/-- C5 witness: a concrete successful refresh yields an access-typed
token (the hypothesis is discharged by evaluating the refresh call). -/
theorem C5_refresh_frame_witness :
    tokenType wRefreshResp.access_token = some "access" :=
  (C5_refresh_frame "k" 10 wDb wRefreshTok wDb wRefreshResp (by rfl)).2.1

/-- C6 witness: the concrete login's session row expires at creation
time plus the default 7-day refresh lifetime, which the refresh token's
`exp` claim matches. -/
theorem C6_session_expiry_witness :
    ∃ s : SessionRec,
      wLoginDb2.sessions = wDb.sessions ++ [s]
      ∧ s.created_at = 20
      ∧ s.expires_at = s.created_at +
          (if wLoginData.remember_me then secondsOfDays 30
            else secondsOfDays REFRESH_TOKEN_EXPIRE_DAYS)
      ∧ secondsOfDays REFRESH_TOKEN_EXPIRE_DAYS = secondsOfDays 7
      ∧ tokenExp wLoginResp.refresh_token
          = some (20 + (if wLoginData.remember_me then secondsOfDays 30
              else secondsOfDays REFRESH_TOKEN_EXPIRE_DAYS)) :=
  C6_session_expiry wDigestF "k" wEnc "s9" 20 wDb wLoginData none none
    wLoginDb2 wLoginResp (by rfl)

/-- C7 witness: concrete round trip and concrete mismatch. -/
theorem C7_password_roundtrip_witness :
    verify_password wDigestF "Passw0rd1"
        (hash_password wDigestF "salt1" "Passw0rd1") = true
    ∧ verify_password wDigestF "WrongPass1"
        (hash_password wDigestF "salt1" "Passw0rd1") = false :=
  ⟨(C7_password_roundtrip wDigestF "salt1" "Passw0rd1" "WrongPass1"
      "Passw0rd1").1,
   (C7_password_roundtrip wDigestF "salt1" "Passw0rd1" "WrongPass1"
      "Passw0rd1").2.1 (by decide) (by decide)⟩

/-- C8 witness: the concrete successful verification flips the user
flag, stamps the token, and leaves the other tables alone. -/
theorem C8_verify_email_success_witness :
    ∃ ev user,
      wDb.email_verifications.find?
          (fun x => x.token == "v3" && x.verified_at == none) = some ev
      ∧ ¬ (10 : Int) > ev.expires_at
      ∧ wDb.users.find? (fun u => u.email == ev.email) = some user
      ∧ { user with
            email_verified := true,
            email_verified_at := some 10,
            updated_at := 10 } ∈ wDbVerified.users
      ∧ { ev with verified_at := some 10 } ∈ wDbVerified.email_verifications
      ∧ wDbVerified.sessions = wDb.sessions
      ∧ wDbVerified.password_resets = wDb.password_resets :=
  (C8_verify_email_success 10 wDb "v3" wDbVerified true (by rfl)).2

/-- C9 witness: concrete logouts — all-devices removes exactly the
user's sessions, and both no-match shapes (including a supplied token
whose `LIKE` pattern, wildcards considered, matches no stored session)
succeed on the unchanged store. -/
theorem C9_logout_all_and_idempotent_witness :
    (∃ db2, logout_user wDb "u1" none = Except.ok (db2, true)
      ∧ (∀ s ∈ db2.sessions, s.user_id ≠ "u1")
      ∧ (∀ s ∈ wDb.sessions, s.user_id ≠ "u1" → s ∈ db2.sessions)
      ∧ db2.users = wDb.users
      ∧ db2.password_resets = wDb.password_resets
      ∧ db2.email_verifications = wDb.email_verifications)
    ∧ logout_user wDb "u3" none = Except.ok (wDb, true)
    ∧ logout_user wDb "u1" (some "nomatch") = Except.ok (wDb, true) :=
  ⟨(C9_logout_all_and_idempotent wDb "u1" "x" none).1,
   (C9_logout_all_and_idempotent wDb "u3" "x" none).2.2.1 (by decide),
   (C9_logout_all_and_idempotent wDb "u1" "nomatch" none).2.2.2 (by decide)⟩

/-- C10 witness: the concrete login's `expires_in` is 900 seconds. -/
theorem C10_expires_in_access_lifetime_witness :
    wLoginResp.expires_in = 900 :=
  (C10_expires_in_access_lifetime wDigestF "k" wEnc "s9" 20 wDb wLoginData
    none none wLoginDb2 wLoginResp (by rfl)).2.1

end TrendPulse
